import Mathlib

/-!
Verification of the go-peerstream Swarm core (src/swarm.go).

Shallow embedding conventions:
* Go maps used as registries (`streams`, `conns`, `listeners`) become Lean
  lists of their keys; insertion appends, membership is list membership.
* Go `nil`-able arguments become `Option`.
* Go errors are modelled by the message / sentinel with which they are
  constructed: two `errors.New` calls with the same string are the same
  `PSError` value, since neither sentinel is exported and callers can only
  inspect the message.
* Each mutating operation returns the result together with the post-state
  (`Except PSError α × Swarm`); error paths in the source never write to a
  registry, which the embedding makes explicit by returning the input state.
* The source stores the stream handler and the connection selector as raw
  atomically-swapped pointers and casts them back on read
  (`StreamHandler(atomic.LoadPointer(...))`).  The embedding keeps the two
  cells as tagged values and a getter returns the cell together with the
  static Go type the source casts the pointer to, so that the (mis)typing
  of the getters is visible: `SelectConn()` in the source is declared to
  return `StreamHandler` (swarm.go line 61), not `SelectConn`.
* `len(conns) == nil` (swarm.go line 133) is ill-typed Go; the sole
  well-typed reading, matching the surrounding doc comments, is
  `len(conns) == 0`, and that is what is embedded.
* Pieces of the repository that src/swarm.go references but whose code is
  not under src/ (`newStream`, `ConnInConns`, the group registry) are
  modelled from the spec; each such definition carries a doc comment
  saying so.
* `AddConn` (swarm.go lines 107-109) is `panic("nyi")` in the source: a Go
  panic aborts instead of returning, so it is embedded as an explicit
  `Outcome.panicked` result carrying the registries exactly as they stood
  at the abort, and `NewStreamWithNetConn` propagates it as the panic
  would unwind through any Go caller.
-/

namespace Peerstream

/-- Identity of a raw transport connection (`net.Conn`); the source never
inspects it beyond handing it to `AddConn`. -/
structure NetConn where
  id : Nat
deriving DecidableEq, Repr

/-- A logical stream handle: its identity and the identity of the owning
Conn (`Stream.conn` back-reference). -/
structure Stream where
  id : Nat
  connId : Nat
deriving DecidableEq, Repr

/-- A Conn: a transport connection wrapped with its multiplexing session.
`swarmId` is the back-reference returned by `conn.Swarm()`; `netConn` is
the identity of the underlying transport connection; `sessionOk` records
whether the session's `CreateStream` succeeds. -/
structure Conn where
  id : Nat
  swarmId : Nat
  netConn : Nat
  sessionOk : Bool
deriving DecidableEq, Repr

/-- Go `type StreamHandler func(Stream)`. -/
def StreamHandler := Stream → Unit

/-- Go `type SelectConn func([]Conn) Conn` (the returned Conn may be nil). -/
def SelectConnFn := List Conn → Option Conn

/-- The static Go function type a getter casts the loaded pointer to. -/
inductive GoFnTy where
  | streamHandlerTy
  | selectConnTy
deriving DecidableEq, Repr

/-- The dynamic value stored in one of the two atomically-swapped policy
cells of the Swarm. -/
inductive PolicyVal where
  | handler (h : StreamHandler)
  | selector (f : SelectConnFn)

/-- What a policy getter returns: the loaded cell (possibly nil) together
with the static Go type the source ascribes to the cast result. -/
structure TypedVal where
  ty : GoFnTy
  val : Option PolicyVal

/-- The dynamic selector behind a loaded pointer: calling through the
pointer runs the stored function whatever the static cast said. -/
def TypedVal.asSelector : TypedVal → Option SelectConnFn
  | ⟨_, some (PolicyVal.selector f)⟩ => some f
  | _ => none

abbrev GroupID := Nat

/-- Errors of src/swarm.go, identified by the message / sentinel used to
construct them. `connNotAssociated` is `errors.New("connection not
associated with swarm")`, the single message used both when
`conn.Swarm() != s` (line 168) and when the conn is missing from
`s.conns` (line 174). -/
inductive PSError where
  | nilSelectConn
  | invalidConnSelected
  | noConnections
  | groupNotFound
  | nilConn
  | connNotAssociated
  | invalidConn
  | sessionError
deriving DecidableEq, Repr

/-- Result of an operation that can abort: a Go `panic` returns nothing
and unwinds, so it is an explicit outcome distinct from a returned
error. -/
inductive Outcome (α : Type) where
  | ok (a : α)
  | err (e : PSError)
  | panicked (msg : String)
deriving DecidableEq, Repr

/-- The Swarm state: the three registries, the group registry, the two
policy cells, and counters supplying fresh Stream/Conn identities. -/
structure Swarm where
  swarmId : Nat
  streams : List Stream
  conns : List Conn
  listeners : List Nat
  groups : List (GroupID × List Conn)
  streamHandlerCell : Option PolicyVal
  selectConnCell : Option PolicyVal
  nextStreamId : Nat
  nextConnId : Nat

/-- Snapshot of the conns registry (swarm.go `Conns`). -/
def Swarm.Conns (s : Swarm) : List Conn := s.conns

/-- Snapshot of the streams registry (swarm.go `Streams`). -/
def Swarm.Streams (s : Swarm) : List Stream := s.streams

/-- Snapshot of the listeners registry (swarm.go `Listeners`). -/
def Swarm.Listeners (s : Swarm) : List Nat := s.listeners

/-- swarm.go `SetStreamHandler`: atomically store the handler pointer. -/
def Swarm.SetStreamHandler (s : Swarm) (sh : StreamHandler) : Swarm :=
  { s with streamHandlerCell := some (PolicyVal.handler sh) }

/-- swarm.go `StreamHandler`: load the handler cell and cast the pointer
to `StreamHandler` (the declared return type, line 47). -/
def Swarm.StreamHandler (s : Swarm) : TypedVal :=
  ⟨GoFnTy.streamHandlerTy, s.streamHandlerCell⟩

/-- swarm.go `SetSelectConn`: atomically store the selector pointer. -/
def Swarm.SetSelectConn (s : Swarm) (cs : SelectConnFn) : Swarm :=
  { s with selectConnCell := some (PolicyVal.selector cs) }

/-- swarm.go `SelectConn` (lines 61-63): loads the selector cell but is
declared to return `StreamHandler` and casts the pointer to
`StreamHandler` — not to the selector type. -/
def Swarm.SelectConn (s : Swarm) : TypedVal :=
  ⟨GoFnTy.streamHandlerTy, s.selectConnCell⟩

/-- Modelled from the spec: `ConnInConns` is referenced at swarm.go line
123 but its code is not under src/; per the selection algorithm it tests
`best ∈ C`, membership of the connection in the offered candidate set. -/
def ConnInConns (c : Conn) (conns : List Conn) : Bool :=
  decide (c ∈ conns)

/-- Modelled from the spec: `c.ssConn.CreateStream(...)` (swarm.go line
191) reaches the multiplexing session, whose code is out of scope; per the
spec it returns the new logical stream or fails with `SessionError` when
the session/transport is unusable. -/
def Conn.CreateStream (c : Conn) : Except PSError Unit :=
  if c.sessionOk then Except.ok () else Except.error PSError.sessionError

/-- Modelled from the spec: `newStream` (swarm.go line 196) lives in the
repository's stream.go, absent from src/; per the spec it creates the
Stream handle owned by `c` and registers it into the swarm's `streams`
registry ("register the resulting Stream into `streams`"). -/
def newStream (s : Swarm) (c : Conn) : Stream × Swarm :=
  let st : Stream := ⟨s.nextStreamId, c.id⟩
  (st, { s with streams := s.streams ++ [st], nextStreamId := s.nextStreamId + 1 })

/-- swarm.go `setupStream` (lines 188-198): ask the conn's session for a
new logical stream, then build and register the Stream. -/
def Swarm.setupStream (s : Swarm) (c : Conn) : Except PSError Stream × Swarm :=
  match c.CreateStream with
  | Except.error e => (Except.error e, s)
  | Except.ok _ =>
    let p := newStream s c
    (Except.ok p.1, p.2)

/-- swarm.go `NewStreamWithConn` (lines 163-184): nil check, owning-swarm
check (`conn.Swarm() != s`), registry-membership check, then
`setupStream`.  The `conn.(*Conn)` type assertion of lines 178-181 cannot
fail in the embedding, where `Conn` is the concrete handle type, so the
`invalidConn` path is unrepresentable here. -/
def Swarm.NewStreamWithConn (s : Swarm) (conn : Option Conn) :
    Except PSError Stream × Swarm :=
  match conn with
  | none => (Except.error PSError.nilConn, s)
  | some c =>
    if c.swarmId = s.swarmId then
      if c ∈ s.conns then
        s.setupStream c
      else
        (Except.error PSError.connNotAssociated, s)
    else
      (Except.error PSError.connNotAssociated, s)

/-- swarm.go `newStreamSelectConn` (lines 117-127): nil-selector check,
run the selector over the candidate set, reject a nil or out-of-set
choice with `ErrInvalidConnSelected`, else defer to `NewStreamWithConn`. -/
def Swarm.newStreamSelectConn (s : Swarm) (selConn : Option SelectConnFn)
    (conns : List Conn) : Except PSError Stream × Swarm :=
  match selConn with
  | none => (Except.error PSError.nilSelectConn, s)
  | some sel =>
    match sel conns with
    | none => (Except.error PSError.invalidConnSelected, s)
    | some best =>
      if ConnInConns best conns then
        s.NewStreamWithConn (some best)
      else
        (Except.error PSError.invalidConnSelected, s)

/-- swarm.go `NewStreamSelectConn` (lines 131-137): snapshot the conns
registry, fail `ErrNoConnections` when it is empty (line 133, see the
header note on `len(conns) == nil`), else run the shared selection. -/
def Swarm.NewStreamSelectConn (s : Swarm) (selConn : Option SelectConnFn) :
    Except PSError Stream × Swarm :=
  let conns := s.Conns
  if conns.length = 0 then
    (Except.error PSError.noConnections, s)
  else
    s.newStreamSelectConn selConn conns

/-- swarm.go `NewStream` (lines 113-115): `s.NewStreamSelectConn(s.SelectConn())`.
The loaded pointer is statically mistyped (see `Swarm.SelectConn`) but
dynamically it is the stored selector, which is what the call passes on. -/
def Swarm.NewStream (s : Swarm) : Except PSError Stream × Swarm :=
  s.NewStreamSelectConn s.SelectConn.asSelector

/-- Modelled from the spec: the group registry (`s.connGrps.Get`,
swarm.go line 143) is declared on no field of the src/ Swarm struct and
its code is not under src/; per the spec it is "a simple mapping keyed by
GroupID, each value a mutable set of Conn identities", `Get` returning
the Group registered under the id, or nil when there is none. -/
def Swarm.connGrpsGet (s : Swarm) (g : GroupID) : Option (List Conn) :=
  (s.groups.find? (fun p => p.1 = g)).map (fun p => p.2)

/-- swarm.go `NewStreamWithGroup` (lines 142-150): fail `ErrGroupNotFound`
for an unregistered id, else run the shared selection over the group's
member set.  Note the call goes to the lowercase `newStreamSelectConn`,
bypassing the empty-candidate-set check of `NewStreamSelectConn`.
`grpblsToConns(g.GetAll())` (line 148) is the group's member set, already
a `List Conn` in the embedding. -/
def Swarm.NewStreamWithGroup (s : Swarm) (group : GroupID) :
    Except PSError Stream × Swarm :=
  match s.connGrpsGet group with
  | none => (Except.error PSError.groupNotFound, s)
  | some g => s.newStreamSelectConn s.SelectConn.asSelector g

/-- swarm.go `AddConn` (lines 107-109): the body is `panic("nyi")` — every
call aborts with that message, returning no Conn and leaving every
registry exactly as it was.  The idempotent no-op contract of the
function's own doc comment (line 106) is not implemented. -/
def Swarm.AddConn (s : Swarm) (_netConn : NetConn) : Outcome Conn × Swarm :=
  (Outcome.panicked "nyi", s)

/-- swarm.go `NewStreamWithNetConn` (lines 154-160): `AddConn` then
`NewStreamWithConn`, propagating `AddConn` errors; an `AddConn` panic
unwinds through this function, as through any Go caller, with the
registries untouched. -/
def Swarm.NewStreamWithNetConn (s : Swarm) (netConn : NetConn) :
    Outcome Stream × Swarm :=
  match s.AddConn netConn with
  | (Outcome.panicked m, s1) => (Outcome.panicked m, s1)
  | (Outcome.err e, s1) => (Outcome.err e, s1)
  | (Outcome.ok c, s1) =>
    match s1.NewStreamWithConn (some c) with
    | (Except.ok st, s2) => (Outcome.ok st, s2)
    | (Except.error e, s2) => (Outcome.err e, s2)

/-- Frame property on the streams registry: a successful call appended
exactly one entry, not previously present; a failing call left the
registry unchanged. -/
def streamsFrame (s : Swarm) (out : Except PSError Stream × Swarm) : Prop :=
  match out.1 with
  | Except.ok st => out.2.streams = s.streams ++ [st] ∧ st ∉ s.streams
  | Except.error _ => out.2.streams = s.streams

/-- The same frame property for an operation that can panic: on a panic
the registry is exactly as it stood when the abort happened. -/
def streamsFrameOutcome (s : Swarm) (out : Outcome Stream × Swarm) : Prop :=
  match out.1 with
  | Outcome.ok st => out.2.streams = s.streams ++ [st] ∧ st ∉ s.streams
  | Outcome.err _ => out.2.streams = s.streams
  | Outcome.panicked _ => out.2.streams = s.streams

/-- Well-formedness: the fresh-stream counter exceeds every registered
stream id, so the next created Stream is not already registered. -/
def Swarm.WF (s : Swarm) : Prop :=
  ∀ st ∈ s.streams, st.id < s.nextStreamId

/-- A registered connection of the example swarm `s0`. -/
def cA : Conn := ⟨0, 0, 10, true⟩

/-- A connection owned by a different Swarm (swarmId 1). -/
def cW : Conn := ⟨5, 1, 9, true⟩

/-- A connection with the right owning Swarm but absent from `s0.conns`. -/
def cN : Conn := ⟨6, 0, 9, true⟩

/-- Example swarm: one registered conn, a registered group `7` with an
empty member set, and a head-of-list selector installed. -/
def s0 : Swarm :=
  { swarmId := 0
    streams := []
    conns := [cA]
    listeners := []
    groups := [(7, [])]
    streamHandlerCell := none
    selectConnCell := some (PolicyVal.selector (fun l => l.head?))
    nextStreamId := 0
    nextConnId := 1 }

/-- Example swarm with every registry empty and no policies installed. -/
def sEmpty : Swarm :=
  { swarmId := 0
    streams := []
    conns := []
    listeners := []
    groups := []
    streamHandlerCell := none
    selectConnCell := none
    nextStreamId := 0
    nextConnId := 0 }

/-- Example swarm with no connections but a registered group `7` with an
empty member set, and a head-of-list selector installed. -/
def sG : Swarm :=
  { sEmpty with
    groups := [(7, [])]
    selectConnCell := some (PolicyVal.selector (fun l => l.head?)) }

theorem streamsFrame_setupStream (s : Swarm) (c : Conn) (h : s.WF) :
    streamsFrame s (s.setupStream c) := by
  unfold Swarm.setupStream
  cases hc : c.CreateStream with
  | error e => simp [streamsFrame]
  | ok u =>
    show (newStream s c).2.streams = s.streams ++ [(newStream s c).1] ∧
      (newStream s c).1 ∉ s.streams
    refine ⟨rfl, fun hmem => ?_⟩
    have hlt := h _ hmem
    simp [newStream] at hlt

theorem streamsFrame_withConn (s : Swarm) (conn : Option Conn) (h : s.WF) :
    streamsFrame s (s.NewStreamWithConn conn) := by
  unfold Swarm.NewStreamWithConn
  match conn with
  | none => simp [streamsFrame]
  | some c =>
    by_cases h1 : c.swarmId = s.swarmId
    · by_cases h2 : c ∈ s.conns
      · simpa [h1, h2] using streamsFrame_setupStream s c h
      · simp [h1, h2, streamsFrame]
    · simp [h1, streamsFrame]

theorem streamsFrame_newStreamSelectConn (s : Swarm) (sel : Option SelectConnFn)
    (conns : List Conn) (h : s.WF) :
    streamsFrame s (s.newStreamSelectConn sel conns) := by
  unfold Swarm.newStreamSelectConn
  match sel with
  | none => simp [streamsFrame]
  | some f =>
    cases hf : f conns with
    | none => simp [hf, streamsFrame]
    | some best =>
      by_cases hb : ConnInConns best conns
      · simpa [hf, hb] using streamsFrame_withConn s (some best) h
      · simp [hf, hb, streamsFrame]

theorem streamsFrame_NewStreamSelectConn (s : Swarm) (sel : Option SelectConnFn)
    (h : s.WF) : streamsFrame s (s.NewStreamSelectConn sel) := by
  unfold Swarm.NewStreamSelectConn
  by_cases hl : s.Conns.length = 0
  · simp [hl, streamsFrame]
  · simpa [hl] using streamsFrame_newStreamSelectConn s sel s.Conns h

/-- C1: for every successful call to any NewStream* variant (NewStream,
NewStreamSelectConn, NewStreamWithGroup, NewStreamWithConn,
NewStreamWithNetConn), exactly one new entry — the returned Stream, not
previously registered — is inserted into the Swarm's streams registry, and
the streams registry is unchanged on any failing call.  For
NewStreamWithNetConn every call panics inside AddConn (lines 107-109)
before any registry is touched, so it has no successful call at all and
the streams registry is unchanged on every call. -/
theorem newStream_variants_streams_frame (s : Swarm) (h : s.WF) :
    streamsFrame s s.NewStream ∧
    (∀ sel, streamsFrame s (s.NewStreamSelectConn sel)) ∧
    (∀ g, streamsFrame s (s.NewStreamWithGroup g)) ∧
    (∀ conn, streamsFrame s (s.NewStreamWithConn conn)) ∧
    (∀ nc, streamsFrameOutcome s (s.NewStreamWithNetConn nc)) := by
  refine ⟨streamsFrame_NewStreamSelectConn s _ h,
    fun sel => streamsFrame_NewStreamSelectConn s sel h,
    fun g => ?_, fun conn => streamsFrame_withConn s conn h, fun nc => rfl⟩
  unfold Swarm.NewStreamWithGroup
  cases hg : s.connGrpsGet g with
  | none => simp [hg, streamsFrame]
  | some gl =>
    simpa [hg] using streamsFrame_newStreamSelectConn s s.SelectConn.asSelector gl h

theorem newStream_variants_streams_frame_witness :
    streamsFrame s0 s0.NewStream ∧ streamsFrame s0 (s0.NewStreamWithConn (some cA)) ∧
    streamsFrameOutcome s0 (s0.NewStreamWithNetConn ⟨10⟩) := by
  have h := newStream_variants_streams_frame s0 (by intro st hm; simp [s0] at hm)
  exact ⟨h.1, h.2.2.2.1 (some cA), h.2.2.2.2 ⟨10⟩⟩

/-- C2: with an empty connection registry, NewStream fails immediately with
the NoConnections error (no Stream, no blocking) and returns the state
unchanged, whatever selector is currently installed in the swarm. -/
theorem newStream_empty_conns_noConnections (s : Swarm) (h : s.conns = []) :
    s.NewStream = (Except.error PSError.noConnections, s) := by
  unfold Swarm.NewStream Swarm.NewStreamSelectConn Swarm.Conns
  simp [h]

theorem newStream_empty_conns_noConnections_witness :
    sEmpty.NewStream = (Except.error PSError.noConnections, sEmpty) :=
  newStream_empty_conns_noConnections sEmpty rfl

/-- C3: over a non-empty candidate set, a selector returning nil or a
connection outside the offered set makes NewStreamSelectConn fail with
InvalidConnSelected and leave the state — in particular the streams
registry — unchanged. -/
theorem selector_invalid_choice_invalidConnSelected (s : Swarm) (sel : SelectConnFn)
    (hne : s.conns ≠ [])
    (hbad : sel s.conns = none ∨ ∃ c, sel s.conns = some c ∧ c ∉ s.conns) :
    s.NewStreamSelectConn (some sel) = (Except.error PSError.invalidConnSelected, s) := by
  unfold Swarm.NewStreamSelectConn Swarm.Conns Swarm.newStreamSelectConn
  have hlen : ¬ s.conns.length = 0 := by
    simpa [List.length_eq_zero] using hne
  rcases hbad with hnone | ⟨c, hc, hcm⟩
  · simp [hlen, hnone]
  · simp [hlen, hc, ConnInConns, hcm]

theorem selector_invalid_choice_invalidConnSelected_witness :
    s0.NewStreamSelectConn (some (fun _ => none)) =
      (Except.error PSError.invalidConnSelected, s0) :=
  selector_invalid_choice_invalidConnSelected s0 (fun _ => none)
    (by decide) (Or.inl rfl)

/-- C4 counterexample: at concrete inputs, NewStreamWithConn returns the
very same error for a conn owned by a different Swarm (cW) as for a conn
not registered in this Swarm's conns (cN), so its three failure modes are
not three distinct taxonomy errors as the claim states. -/
theorem withConn_wrongSwarm_notRegistered_same_error_cex :
    (s0.NewStreamWithConn (some cW)).1 = (s0.NewStreamWithConn (some cN)).1 ∧
    (s0.NewStreamWithConn (some cW)).1 = Except.error PSError.connNotAssociated := by
  exact ⟨rfl, rfl⟩

/-- C4 amended: NewStreamWithConn fails with the nil-Conn error on a nil
argument, and with the single connection-not-associated error both when
the conn is owned by a different Swarm and when it is not currently in
this Swarm's conns registry; no Stream is created and the state is
unchanged in all three failure modes. -/
theorem withConn_failure_modes (s : Swarm) (c c' : Conn)
    (hw : c.swarmId ≠ s.swarmId) (hn : c' ∉ s.conns) :
    s.NewStreamWithConn none = (Except.error PSError.nilConn, s) ∧
    s.NewStreamWithConn (some c) = (Except.error PSError.connNotAssociated, s) ∧
    s.NewStreamWithConn (some c') = (Except.error PSError.connNotAssociated, s) := by
  refine ⟨rfl, ?_, ?_⟩
  · simp [Swarm.NewStreamWithConn, hw]
  · by_cases h' : c'.swarmId = s.swarmId <;> simp [Swarm.NewStreamWithConn, h', hn]

theorem withConn_failure_modes_witness :
    s0.NewStreamWithConn none = (Except.error PSError.nilConn, s0) ∧
    s0.NewStreamWithConn (some cW) = (Except.error PSError.connNotAssociated, s0) ∧
    s0.NewStreamWithConn (some cN) = (Except.error PSError.connNotAssociated, s0) :=
  withConn_failure_modes s0 cW cN (by decide) (by decide)

/-- C5 counterexample: on the concrete swarm s0, group 7 is registered with
an empty member set, yet NewStreamWithGroup fails with InvalidConnSelected —
the installed selector was run on the empty candidate set — and not with
NoConnections as the claim states. -/
theorem withGroup_empty_group_not_noConnections_cex :
    (s0.NewStreamWithGroup 7).1 = Except.error PSError.invalidConnSelected ∧
    (s0.NewStreamWithGroup 7).1 ≠ Except.error PSError.noConnections := by
  have h1 : (s0.NewStreamWithGroup 7).1 = Except.error PSError.invalidConnSelected := rfl
  refine ⟨h1, ?_⟩
  rw [h1]
  simp

/-- C5 amended: NewStream and NewStreamSelectConn fail with NoConnections
on an empty candidate set before the selector is ever invoked, but
NewStreamWithGroup performs no emptiness check: on a registered Group
whose member set is empty it runs the selection over the empty set and
fails with NilSelector (when no selector is installed) or
InvalidConnSelected — never with NoConnections — leaving the state
unchanged. -/
theorem empty_candidate_set_behavior (s : Swarm) (g : GroupID)
    (hc : s.conns = []) (hg : s.connGrpsGet g = some []) :
    (∀ sel, s.NewStreamSelectConn sel = (Except.error PSError.noConnections, s)) ∧
    s.NewStream = (Except.error PSError.noConnections, s) ∧
    (s.NewStreamWithGroup g).2 = s ∧
    ((s.NewStreamWithGroup g).1 = Except.error PSError.nilSelectConn ∨
     (s.NewStreamWithGroup g).1 = Except.error PSError.invalidConnSelected) := by
  have hsel : ∀ sel, s.NewStreamSelectConn sel = (Except.error PSError.noConnections, s) := by
    intro sel
    unfold Swarm.NewStreamSelectConn Swarm.Conns
    simp [hc]
  have hgrp : s.NewStreamWithGroup g = (Except.error PSError.nilSelectConn, s) ∨
      s.NewStreamWithGroup g = (Except.error PSError.invalidConnSelected, s) := by
    unfold Swarm.NewStreamWithGroup Swarm.newStreamSelectConn
    cases hsc : s.SelectConn.asSelector with
    | none => exact Or.inl (by simp [hg, hsc])
    | some f =>
      cases hf : f [] with
      | none => exact Or.inr (by simp [hg, hsc, hf])
      | some best => exact Or.inr (by simp [hg, hsc, hf, ConnInConns])
  refine ⟨hsel, hsel _, ?_, ?_⟩ <;> rcases hgrp with h1 | h1 <;> rw [h1]
  · exact Or.inl rfl
  · exact Or.inr rfl

theorem empty_candidate_set_behavior_witness :
    sG.NewStream = (Except.error PSError.noConnections, sG) ∧
    (sG.NewStreamWithGroup 7).2 = sG ∧
    ((sG.NewStreamWithGroup 7).1 = Except.error PSError.nilSelectConn ∨
     (sG.NewStreamWithGroup 7).1 = Except.error PSError.invalidConnSelected) := by
  have h := empty_candidate_set_behavior sG 7 rfl rfl
  exact ⟨h.2.1, h.2.2.1, h.2.2.2⟩

/-- C6: NewStreamWithGroup on a GroupID with no registered Group fails with
the GroupNotFound error and returns the state unchanged — so every
registry (streams, conns, listeners, groups) is untouched. -/
theorem withGroup_unregistered_groupNotFound (s : Swarm) (g : GroupID)
    (h : s.connGrpsGet g = none) :
    s.NewStreamWithGroup g = (Except.error PSError.groupNotFound, s) := by
  unfold Swarm.NewStreamWithGroup
  simp [h]

theorem withGroup_unregistered_groupNotFound_witness :
    sEmpty.NewStreamWithGroup 3 = (Except.error PSError.groupNotFound, sEmpty) :=
  withGroup_unregistered_groupNotFound sEmpty 3 rfl

/-- C7 (code evaluation): `AddConn` in src/swarm.go (lines 107-109) is
`panic("nyi")`: every call — in particular a second call with an
already-offered transport connection — aborts with that message, returns
no Conn and leaves the state untouched.  The idempotent no-op success
described by the claim, by the spec, and by the source's own line-106 doc
comment never happens in the code. -/
theorem addConn_always_panics (s : Swarm) (nc : NetConn) :
    s.AddConn nc = (Outcome.panicked "nyi", s) := rfl

/-- C8 (code evaluation): the handler slot round-trips — StreamHandler()
after SetStreamHandler(h) returns h at the declared StreamHandler type —
and SetSelectConn/SelectConn round-trips the stored selector value f, but
the SelectConn getter hands f back cast to the StreamHandler type, its
declared return type (swarm.go line 61), not a value of the selector type
as its own doc comment, its call site in NewStream, and the claim require. -/
theorem policy_roundtrip_selectConn_mistyped (s : Swarm) (h : StreamHandler)
    (f : SelectConnFn) :
    (s.SetStreamHandler h).StreamHandler =
      ⟨GoFnTy.streamHandlerTy, some (PolicyVal.handler h)⟩ ∧
    (s.SetSelectConn f).SelectConn =
      ⟨GoFnTy.streamHandlerTy, some (PolicyVal.selector f)⟩ ∧
    ((s.SetSelectConn f).SelectConn).ty ≠ GoFnTy.selectConnTy := by
  refine ⟨rfl, rfl, ?_⟩
  intro hcontra
  simp [Swarm.SetSelectConn, Swarm.SelectConn] at hcontra

/-- C9: in NewStreamSelectConn the emptiness check on the conns registry
precedes the nil-selector check: with an empty registry a nil selector
yields NoConnections, and NilSelector surfaces only when the registry is
non-empty and the selector is nil. -/
theorem noConnections_precedes_nilSelector (s : Swarm) :
    (s.conns = [] →
      s.NewStreamSelectConn none = (Except.error PSError.noConnections, s)) ∧
    (s.conns ≠ [] →
      s.NewStreamSelectConn none = (Except.error PSError.nilSelectConn, s)) := by
  constructor <;> intro h <;>
    unfold Swarm.NewStreamSelectConn Swarm.Conns Swarm.newStreamSelectConn
  · simp [h]
  · have hlen : ¬ s.conns.length = 0 := by
      simpa [List.length_eq_zero] using h
    simp [hlen]

theorem noConnections_precedes_nilSelector_witness :
    sEmpty.NewStreamSelectConn none = (Except.error PSError.noConnections, sEmpty) ∧
    s0.NewStreamSelectConn none = (Except.error PSError.nilSelectConn, s0) :=
  ⟨(noConnections_precedes_nilSelector sEmpty).1 rfl,
   (noConnections_precedes_nilSelector s0).2 (by decide)⟩

/-- C10: for non-nil conns, the error NewStreamWithConn returns when the
conn is owned by a different Swarm is identical to the error it returns
when the conn is missing from this Swarm's conns registry — both are the
connection-not-associated error — so a caller cannot distinguish the two
cases by inspecting the returned error. -/
theorem withConn_wrongSwarm_notRegistered_indistinguishable (s : Swarm) (c c' : Conn)
    (hw : c.swarmId ≠ s.swarmId) (hn : c' ∉ s.conns) :
    (s.NewStreamWithConn (some c)).1 = (s.NewStreamWithConn (some c')).1 ∧
    (s.NewStreamWithConn (some c)).1 = Except.error PSError.connNotAssociated := by
  have h1 : s.NewStreamWithConn (some c) = (Except.error PSError.connNotAssociated, s) := by
    simp [Swarm.NewStreamWithConn, hw]
  have h2 : s.NewStreamWithConn (some c') = (Except.error PSError.connNotAssociated, s) := by
    by_cases h' : c'.swarmId = s.swarmId <;> simp [Swarm.NewStreamWithConn, h', hn]
  rw [h1, h2]
  exact ⟨rfl, rfl⟩

theorem withConn_wrongSwarm_notRegistered_indistinguishable_witness :
    (s0.NewStreamWithConn (some cW)).1 = (s0.NewStreamWithConn (some cN)).1 ∧
    (s0.NewStreamWithConn (some cW)).1 = Except.error PSError.connNotAssociated :=
  withConn_wrongSwarm_notRegistered_indistinguishable s0 cW cN (by decide) (by decide)

end Peerstream
